import Mathlib

/-!
Verification model of the Ethereum explorer backend
(src/backend/api/ethereum.ts).

The backend keeps a process-wide mutable cache of the latest Ethereum
snapshot, refreshed by `fetchLatestBlockData`, and serves it over three
HTTP routes.  We embed one refresh cycle as a pure state transformer over
an explicit environment (`CycleEnv`) recording the outcome of each
JSON-RPC interaction performed during that cycle, and each HTTP handler as
a pure function from the cache to a response paired with the cache left
behind by the handler.

Modelling conventions:
* a thrown JavaScript exception is `Except.error ()` (for RPC calls) or
  `Option.none` (for `BigInt` conversion);
* `parseInt(h, 16)` (the source helper `hexToDecimal`) yields `Option Nat`
  where `none` plays the role of `NaN`; leading whitespace and signs,
  which never occur in RPC quantity encodings, are not modelled, and the
  value is kept exact (the source loses precision above 2^53, a range no
  theorem below touches);
* `Number(wei) / 1e18` followed by `toFixed` is modelled by exact rational
  arithmetic (`divToFixed`); the two agree whenever the double computation
  is exact, in particular on every concrete input appearing below;
* values derived from `Math.random()` and from `Date.now()` are inputs of
  the environment.
-/

/-- Value of one hexadecimal digit character, `none` if not a hex digit. -/
def hexDigitVal? (c : Char) : Option Nat :=
  if '0' ≤ c ∧ c ≤ '9' then some (c.toNat - Char.toNat '0')
  else if 'a' ≤ c ∧ c ≤ 'f' then some (c.toNat - Char.toNat 'a' + 10)
  else if 'A' ≤ c ∧ c ≤ 'F' then some (c.toNat - Char.toNat 'A' + 10)
  else none

/-- Value of a list of hexadecimal digit characters (base 16). -/
def hexDigitsVal (cs : List Char) : Nat :=
  cs.foldl (fun a c => a * 16 + ((hexDigitVal? c).getD 0)) 0

/-- Model of the source helper `hexToDecimal`, i.e. `parseInt(hex, 16)`:
strips an optional 0x/0X marker, then parses the longest run of hex
digits; `none` models the `NaN` result produced when no digit is found. -/
def hexToDecimal (hex : String) : Option Nat :=
  let cs := match hex.toList with
    | '0' :: 'x' :: rest => rest
    | '0' :: 'X' :: rest => rest
    | cs => cs
  let ds := cs.takeWhile (fun c => (hexDigitVal? c).isSome)
  if ds = [] then none else some (hexDigitsVal ds)

/-- Model of the source helper `hexToBigInt`, i.e. `BigInt(hex)` on a
0x-prefixed literal; `none` models the exception thrown on a malformed
literal.  Decimal, octal and binary literal forms, which never occur in
RPC quantity encodings, are not modelled. -/
def hexToBigInt (hex : String) : Option Nat :=
  match hex.toList with
  | '0' :: 'x' :: rest =>
    if rest ≠ [] ∧ rest.all (fun c => (hexDigitVal? c).isSome)
    then some (hexDigitsVal rest) else none
  | _ => none

/-- Rendering of `num / den` (both naturals, `den > 0` in every use) with
`digits` decimal places: the exact-rational model of JavaScript
`toFixed` on a nonnegative value, rounding to nearest with half up. -/
def divToFixed (num den digits : Nat) : String :=
  let p := 10 ^ digits
  let scaled := (num * p * 2 + den) / (2 * den)
  let ip := scaled / p
  let fp := scaled % p
  let fpStr := toString fp
  let pad := String.mk (List.replicate (digits - fpStr.length) '0')
  if digits = 0 then toString ip
  else toString ip ++ "." ++ pad ++ fpStr

/-- Source helper `formatEther`: wei hex string to ether with 6 decimal
digits; `none` models the exception of `BigInt` on malformed input. -/
def formatEther (weiHex : String) : Option String :=
  (hexToBigInt weiHex).map (fun wei => divToFixed wei (10 ^ 18) 6)

/-- Source helper `formatGwei`: wei hex string to gwei with 2 decimal
digits; `none` models the exception of `BigInt` on malformed input. -/
def formatGwei (weiHex : String) : Option String :=
  (hexToBigInt weiHex).map (fun wei => divToFixed wei (10 ^ 9) 2)

/-- JavaScript `x.toString()` for a number that may be `NaN`. -/
def jsNumToString : Option Nat → String
  | none => "NaN"
  | some n => toString n

/-- JavaScript `s || d` for an optional string: `null`, `undefined` and
the empty string are falsy and give the default. -/
def jsOrStr (o : Option String) (d : String) : String :=
  match o with
  | some s => if s = "" then d else s
  | none => d

/-- Value of a list of decimal digit characters. -/
def decDigitsVal (cs : List Char) : Nat :=
  cs.foldl (fun a c => a * 10 + (c.toNat - Char.toNat '0')) 0

/-- Model of `parseFloat` on the digit strings produced by `toFixed`
(optional integer part, optional dot and fraction part); `none` models
`NaN`.  Signs and exponents, unreachable from `toFixed` output, are not
modelled. -/
def jsParseFloat (s : String) : Option Rat :=
  let cs := s.toList
  let intd := cs.takeWhile Char.isDigit
  let rest := cs.drop intd.length
  let fracd := match rest with
    | '.' :: r => r.takeWhile Char.isDigit
    | _ => []
  if intd = [] ∧ fracd = [] then none
  else some ((decDigitsVal intd : Rat) + (decDigitsVal fracd : Rat) / ((10 : Rat) ^ fracd.length))

/-- The EthereumBlock interface of the source.  Fields produced by
`hexToDecimal` are `Option Nat` (`none` = `NaN`). -/
structure EthereumBlock where
  number : Option Nat
  hash : String
  timestamp : Option Nat
  transactions : List String
  gasUsed : String
  gasLimit : String
  miner : String
  difficulty : String
  txCount : Nat
deriving Repr, DecidableEq

/-- The EthereumTransaction interface of the source. -/
structure EthereumTransaction where
  hash : String
  sender : String
  «to» : String
  value : String
  gasPrice : String
  gasLimit : String
  nonce : Option Nat
  blockNumber : Option Nat
deriving Repr, DecidableEq

/-- The EthereumNetworkInfo interface of the source. -/
structure EthereumNetworkInfo where
  blockNumber : Option Nat
  gasPrice : String
  txCount : Nat
deriving Repr, DecidableEq

/-- The GasPricePoint interface of the source; `gasPrice` is the
`parseFloat` of a gwei string. -/
structure GasPricePoint where
  blockNumber : Option Nat
  gasPrice : Option Rat
  timestamp : Option Nat
deriving Repr, DecidableEq

/-- The MempoolStats interface of the source. -/
structure MempoolStats where
  pendingCount : Nat
  avgGasPrice : String
  totalValue : String
deriving Repr, DecidableEq

/-- The cache object `cachedData` of the source. -/
structure CachedData where
  block : Option EthereumBlock
  transactions : List EthereumTransaction
  networkInfo : EthereumNetworkInfo
  blockHistory : List EthereumBlock
  gasPriceHistory : List GasPricePoint
  mempoolStats : MempoolStats
  lastUpdate : Nat
deriving Repr, DecidableEq

/-- The initial value of `cachedData` in the source. -/
def initialCachedData : CachedData :=
  { block := none
  , transactions := []
  , networkInfo := { blockNumber := some 0, gasPrice := "0", txCount := 0 }
  , blockHistory := []
  , gasPriceHistory := []
  , mempoolStats := { pendingCount := 0, avgGasPrice := "0", totalValue := "0" }
  , lastUpdate := 0 }

/-- A raw transaction object as delivered by the RPC endpoint (either
embedded in a block or returned by eth_getTransactionByHash).  Optional
fields model absent/null JSON fields. -/
structure RpcTx where
  hash : String
  sender : String
  «to» : Option String
  value : String
  gasPrice : String
  gas : String
  nonce : String
  blockNumber : Option String
deriving Repr, DecidableEq

/-- An element of a raw block transaction list: either a bare hash
string or a full transaction object (the source handles both shapes). -/
inductive TxEntry where
  | hash (h : String)
  | full (tx : RpcTx)
deriving Repr, DecidableEq

/-- The hash recorded for a transaction entry, as in the source map
over `block.transactions`. -/
def TxEntry.hashOf : TxEntry → String
  | .hash h => h
  | .full tx => tx.hash

/-- A raw block object as delivered by eth_getBlockByNumber. -/
structure RpcBlock where
  number : String
  hash : Option String
  timestamp : String
  transactions : List TxEntry
  gasUsed : String
  gasLimit : String
  miner : Option String
  difficulty : Option String

/-- The environment of one refresh cycle: the outcome of each RPC call
the cycle would make, the random draws of the simulated mempool stats,
and the `Date.now()` instant recorded on success. -/
structure CycleEnv where
  blockNumberRes : Except Unit String
  blockRes : Except Unit (Option RpcBlock)
  txFetch : String → Except Unit (Option RpcTx)
  gasPriceRes : Except Unit String
  randPending : Nat
  randTotal : String
  now : Nat

/-- Normalization of a raw block into the EthereumBlock shape (the
`ethBlock` object literal of the source). -/
def normalizeBlock (block : RpcBlock) : EthereumBlock :=
  { number := hexToDecimal block.number
  , hash := jsOrStr block.hash ("")
  , timestamp := hexToDecimal block.timestamp
  , transactions := block.transactions.map TxEntry.hashOf
  , gasUsed := jsNumToString (hexToDecimal block.gasUsed)
  , gasLimit := jsNumToString (hexToDecimal block.gasLimit)
  , miner := jsOrStr block.miner ("")
  , difficulty := jsNumToString (hexToDecimal (jsOrStr block.difficulty ("0x0")))
  , txCount := block.transactions.length }

/-- Normalization of one raw transaction into the pushed record of the
source loop; `none` models the per-transaction exception thrown by
`formatEther`/`formatGwei` on malformed hex, caught and skipped. -/
def normalizeTx (txData : RpcTx) : Option EthereumTransaction :=
  match formatEther txData.value, formatGwei txData.gasPrice with
  | some v, some gp =>
    some { hash := txData.hash
         , sender := txData.sender
         , «to» := jsOrStr txData.«to» ("Contract Creation")
         , value := v
         , gasPrice := gp
         , gasLimit := jsNumToString (hexToDecimal txData.gas)
         , nonce := hexToDecimal txData.nonce
         , blockNumber := hexToDecimal (jsOrStr txData.blockNumber ("0x0")) }
  | _, _ => none

/-- One iteration of the transaction loop body: a hash entry is fetched
(a thrown fetch error or a null result are skipped), a full entry is
used directly; `none` means nothing is pushed for this entry. -/
def processTxEntry (txFetch : String → Except Unit (Option RpcTx)) :
    TxEntry → Option EthereumTransaction
  | .hash h =>
    match txFetch h with
    | .error _ => none
    | .ok none => none
    | .ok (some txData) => normalizeTx txData
  | .full txData => normalizeTx txData

/-- The transaction loop of the source over a sampled entry list. -/
def processTxs (txFetch : String → Except Unit (Option RpcTx)) :
    List TxEntry → List EthereumTransaction
  | [] => []
  | e :: rest =>
    match processTxEntry txFetch e with
    | none => processTxs txFetch rest
    | some t => t :: processTxs txFetch rest

/-- One refresh cycle, `fetchLatestBlockData` of the source, as a state
transformer on the cache.  Every throwing operation of the cycle occurs
before the first cache mutation, so any thrown error (caught by the
top-level try) and a null block both leave the cache untouched. -/
def fetchLatestBlockData (env : CycleEnv) (cachedData : CachedData) : CachedData :=
  match env.blockNumberRes with
  | .error _ => cachedData
  | .ok latestBlockNumberHex =>
    match env.blockRes with
    | .error _ => cachedData
    | .ok none => cachedData
    | .ok (some block) =>
      let latestBlockNumber := hexToDecimal latestBlockNumberHex
      let ethBlock := normalizeBlock block
      let txList := block.transactions.take 15
      let transactions := processTxs env.txFetch txList
      match env.gasPriceRes with
      | .error _ => cachedData
      | .ok gasPriceHex =>
        match formatGwei gasPriceHex with
        | none => cachedData
        | some currentGasPrice =>
          let networkInfo : EthereumNetworkInfo :=
            { blockNumber := latestBlockNumber
            , gasPrice := currentGasPrice
            , txCount := block.transactions.length }
          let bh := ethBlock :: cachedData.blockHistory
          let blockHistory := if bh.length > 20 then bh.take 20 else bh
          let gph : List GasPricePoint :=
            { blockNumber := latestBlockNumber
            , gasPrice := jsParseFloat currentGasPrice
            , timestamp := hexToDecimal block.timestamp } :: cachedData.gasPriceHistory
          let gasPriceHistory := if gph.length > 50 then gph.take 50 else gph
          { block := some ethBlock
          , transactions := transactions
          , networkInfo := networkInfo
          , blockHistory := blockHistory
          , gasPriceHistory := gasPriceHistory
          , mempoolStats :=
            { pendingCount := env.randPending
            , avgGasPrice := currentGasPrice
            , totalValue := env.randTotal }
          , lastUpdate := env.now }

/-- A sequence of refresh cycles applied to a starting cache. -/
def runCycles (envs : List CycleEnv) (cache : CachedData) : CachedData :=
  envs.foldl (fun c e => fetchLatestBlockData e c) cache

/-- Whether a cycle reaches the cache-update section: every RPC call
succeeds, the block is non-null and the gas price hex parses. -/
def cycleOk (env : CycleEnv) : Bool :=
  match env.blockNumberRes, env.blockRes, env.gasPriceRes with
  | .ok _, .ok (some _), .ok gp => (formatGwei gp).isSome
  | _, _, _ => false

/-- The block a cycle would fetch, when its block RPC call succeeds with
a non-null block. -/
def fetchedBlock? (env : CycleEnv) : Option RpcBlock :=
  match env.blockRes with
  | .ok (some b) => some b
  | _ => none

/-- The staleness test of the snapshot route: refresh when the cache is
older than 30 seconds (Nat subtraction matches the JS comparison, which
is false whenever `lastUpdate` is in the future). -/
def snapshotTriggersRefresh (now : Nat) (cache : CachedData) : Bool :=
  decide (30000 < now - cache.lastUpdate)

/-- The snapshot route: refreshes inline when stale, then returns the
whole cache; the pair is (response body, cache after the request). -/
def snapshotRoute (env : CycleEnv) (now : Nat) (cache : CachedData) :
    CachedData × CachedData :=
  let cache2 := if snapshotTriggersRefresh now cache
    then fetchLatestBlockData env cache else cache
  (cache2, cache2)

/-- The response body of the health route. -/
structure HealthResponse where
  status : String
  lastUpdate : Nat
  blockNumber : Option Nat
deriving Repr, DecidableEq

/-- The health route: reads the cache as-is, no refresh. -/
def healthRoute (cache : CachedData) : HealthResponse × CachedData :=
  ({ status := "ok"
   , lastUpdate := cache.lastUpdate
   , blockNumber := cache.networkInfo.blockNumber }, cache)

/-- The mempool route: returns only the mempool stats, no refresh. -/
def mempoolRoute (cache : CachedData) : MempoolStats × CachedData :=
  (cache.mempoolStats, cache)

/-- Strict greater-than on JS numbers that may be NaN: any comparison
with NaN is false. -/
def optGt : Option Nat → Option Nat → Bool
  | some a, some b => decide (b < a)
  | _, _ => false

/-- Strict newest-first ordering of a block history by block number. -/
def strictlyNewestFirst : List EthereumBlock → Bool
  | [] => true
  | [_] => true
  | a :: b :: rest => optGt a.number b.number && strictlyNewestFirst (b :: rest)

/-- A raw block of number 1 with an empty transaction list, used in
concrete scenarios. -/
def rpcBlockOne : RpcBlock :=
  { number := "0x1"
  , hash := some ("0xaa")
  , timestamp := "0x10"
  , transactions := []
  , gasUsed := "0x0"
  , gasLimit := "0x0"
  , miner := some ("0xbb")
  , difficulty := some ("0x1") }

/-- A raw transaction with a recipient, fetchable as hash h1. -/
def txA : RpcTx :=
  { hash := "0xh1"
  , sender := "0xs1"
  , «to» := some ("0xr1")
  , value := "0x0"
  , gasPrice := "0x0"
  , gas := "0x5208"
  , nonce := "0x0"
  , blockNumber := some ("0x2") }

/-- A raw block of number 2 carrying two transaction hashes. -/
def rpcBlockTwoTx : RpcBlock :=
  { number := "0x2"
  , hash := some ("0xcc")
  , timestamp := "0x20"
  , transactions := [TxEntry.hash ("0xh1"), TxEntry.hash ("0xh2")]
  , gasUsed := "0x0"
  , gasLimit := "0x0"
  , miner := none
  , difficulty := none }

/-- A raw contract-creation transaction: its recipient is absent. -/
def txCC : RpcTx :=
  { hash := "0xh9"
  , sender := "0xs9"
  , «to» := none
  , value := "0x0"
  , gasPrice := "0x0"
  , gas := "0x5208"
  , nonce := "0x0"
  , blockNumber := none }

/-- The normalization the source produces for `txCC`. -/
def txCCNorm : EthereumTransaction :=
  { hash := "0xh9"
  , sender := "0xs9"
  , «to» := "Contract Creation"
  , value := "0.000000"
  , gasPrice := "0.00"
  , gasLimit := "21000"
  , nonce := some 0
  , blockNumber := some 0 }

/-- An environment whose cycle fully succeeds, fetching `rpcBlockOne`. -/
def envOne : CycleEnv :=
  { blockNumberRes := .ok ("0x1")
  , blockRes := .ok (some rpcBlockOne)
  , txFetch := fun _ => .ok none
  , gasPriceRes := .ok ("0x3b9aca00")
  , randPending := 12345
  , randTotal := "75.00"
  , now := 999999 }

/-- An environment whose block fetch returns null. -/
def envNoBlock : CycleEnv :=
  { blockNumberRes := .ok ("0x1")
  , blockRes := .ok none
  , txFetch := fun _ => .ok none
  , gasPriceRes := .ok ("0x3b9aca00")
  , randPending := 0
  , randTotal := "50.00"
  , now := 2000 }

/-- An environment fetching `rpcBlockTwoTx` in which exactly one of the
two per-transaction fetches fails. -/
def envOneFail : CycleEnv :=
  { blockNumberRes := .ok ("0x2")
  , blockRes := .ok (some rpcBlockTwoTx)
  , txFetch := fun h => if h = "0xh1" then .ok (some txA) else .error ()
  , gasPriceRes := .ok ("0x3b9aca00")
  , randPending := 7
  , randTotal := "60.00"
  , now := 3000 }

/-- A cache whose last update was at instant 5000, otherwise initial. -/
def cacheAt5000 : CachedData :=
  { initialCachedData with lastUpdate := 5000 }

/-- Whether the transaction loop body would hit a thrown per-transaction
fetch for this entry (a full embedded object performs no fetch). -/
def fetchFails (txFetch : String → Except Unit (Option RpcTx)) : TxEntry → Bool
  | .hash h =>
    match txFetch h with
    | .error _ => true
    | .ok _ => false
  | .full _ => false

/-- The gas-price history sample a successful cycle pushes. -/
def gasPoint (bnHex gw : String) (block : RpcBlock) : GasPricePoint :=
  { blockNumber := hexToDecimal bnHex
  , gasPrice := jsParseFloat gw
  , timestamp := hexToDecimal block.timestamp }

/-- The cache value produced by a cycle whose RPC interactions all
succeed, spelled out; `fetch_of_ok` proves it matches the code. -/
def cycleResult (env : CycleEnv) (cache : CachedData) (block : RpcBlock)
    (bnHex gw : String) : CachedData :=
  { block := some (normalizeBlock block)
  , transactions := processTxs env.txFetch (block.transactions.take 15)
  , networkInfo :=
    { blockNumber := hexToDecimal bnHex
    , gasPrice := gw
    , txCount := block.transactions.length }
  , blockHistory :=
    if (normalizeBlock block :: cache.blockHistory).length > 20
    then (normalizeBlock block :: cache.blockHistory).take 20
    else normalizeBlock block :: cache.blockHistory
  , gasPriceHistory :=
    if (gasPoint bnHex gw block :: cache.gasPriceHistory).length > 50
    then (gasPoint bnHex gw block :: cache.gasPriceHistory).take 50
    else gasPoint bnHex gw block :: cache.gasPriceHistory
  , mempoolStats :=
    { pendingCount := env.randPending
    , avgGasPrice := gw
    , totalValue := env.randTotal }
  , lastUpdate := env.now }

lemma fetch_of_ok (env : CycleEnv) (cache : CachedData) {block : RpcBlock}
    {bnHex gpHex gw : String}
    (hbn : env.blockNumberRes = .ok bnHex)
    (hb : env.blockRes = .ok (some block))
    (hgp : env.gasPriceRes = .ok gpHex)
    (hgw : formatGwei gpHex = some gw) :
    fetchLatestBlockData env cache = cycleResult env cache block bnHex gw := by
  obtain ⟨bnr, br, tf, gpr, rp, rt, n⟩ := env
  dsimp only at hbn hb hgp
  subst hbn; subst hb; subst hgp
  simp only [fetchLatestBlockData, cycleResult, gasPoint, hgw]

lemma fetch_of_fail (env : CycleEnv) (cache : CachedData)
    (h : cycleOk env = false) : fetchLatestBlockData env cache = cache := by
  obtain ⟨bnr, br, tf, gpr, rp, rt, n⟩ := env
  cases bnr with
  | error e => rfl
  | ok bn =>
    cases br with
    | error e => rfl
    | ok ob =>
      cases ob with
      | none => rfl
      | some b =>
        cases gpr with
        | error e => rfl
        | ok gp =>
          cases hgw : formatGwei gp with
          | none => simp only [fetchLatestBlockData, hgw]
          | some gw =>
            simp only [cycleOk, hgw] at h
            simp at h

lemma cycleOk_spec (env : CycleEnv) (h : cycleOk env = true) :
    ∃ bnHex block gpHex gw,
      env.blockNumberRes = .ok bnHex ∧ env.blockRes = .ok (some block) ∧
      env.gasPriceRes = .ok gpHex ∧ formatGwei gpHex = some gw := by
  obtain ⟨bnr, br, tf, gpr, rp, rt, n⟩ := env
  cases bnr with
  | error e => simp only [cycleOk] at h; exact Bool.noConfusion h
  | ok bn =>
    cases br with
    | error e => simp only [cycleOk] at h; exact Bool.noConfusion h
    | ok ob =>
      cases ob with
      | none => simp only [cycleOk] at h; exact Bool.noConfusion h
      | some b =>
        cases gpr with
        | error e => simp only [cycleOk] at h; exact Bool.noConfusion h
        | ok gp =>
          simp only [cycleOk] at h
          obtain ⟨gw, hgw⟩ := Option.isSome_iff_exists.mp h
          exact ⟨bn, b, gp, gw, rfl, rfl, rfl, hgw⟩

lemma trim_length_le {α : Type} (l : List α) (k : Nat) :
    (if l.length > k then l.take k else l).length ≤ k := by
  split
  next h => simp [List.length_take]
  next h => omega

lemma trim_head {α : Type} (a : α) (l : List α) (k : Nat) (hk : 0 < k) :
    (if (a :: l).length > k then (a :: l).take k else a :: l).head? = some a := by
  split
  next h =>
    rw [List.head?_take]
    simp [Nat.pos_iff_ne_zero.mp hk]
  next h => rfl

lemma processTxs_eq_filterMap (txFetch : String → Except Unit (Option RpcTx))
    (l : List TxEntry) :
    processTxs txFetch l = l.filterMap (processTxEntry txFetch) := by
  induction l with
  | nil => rfl
  | cons e rest ih =>
    unfold processTxs
    cases h : processTxEntry txFetch e <;> simp [List.filterMap_cons, h, ih]

lemma take_min_length {α : Type} (l : List α) (n : Nat) :
    l.take (min l.length n) = l.take n := by
  rcases le_total l.length n with h | h
  · rw [min_eq_left h, List.take_length, List.take_of_length_le h]
  · rw [min_eq_right h]

lemma processTxEntry_of_fetchFails (txFetch : String → Except Unit (Option RpcTx))
    (e : TxEntry) (h : fetchFails txFetch e = true) :
    processTxEntry txFetch e = none := by
  cases e with
  | hash s =>
    simp only [processTxEntry]
    cases ht : txFetch s with
    | error u => rfl
    | ok o =>
      simp only [fetchFails, ht] at h
      exact Bool.noConfusion h
  | full tx => exact Bool.noConfusion h

lemma filterMap_length_of_one_fail {α β : Type} (f : α → Option β) (p : α → Bool)
    (l : List α)
    (hfail : ∀ e ∈ l, p e = true → f e = none)
    (hsome : ∀ e ∈ l, p e = false → (f e).isSome = true) :
    (l.filterMap f).length = l.length - (l.filter p).length := by
  induction l with
  | nil => rfl
  | cons e rest ih =>
    have ihr := ih (fun x hx => hfail x (List.mem_cons_of_mem e hx))
      (fun x hx => hsome x (List.mem_cons_of_mem e hx))
    cases hp : p e with
    | false =>
      obtain ⟨b, hb⟩ := Option.isSome_iff_exists.mp
        (hsome e (List.mem_cons_self e rest) hp)
      rw [List.filterMap_cons, hb, List.filter_cons, hp]
      simp only [List.length_cons, Bool.false_eq_true, if_false, ihr]
      have hle := List.length_filter_le p rest
      omega
    | true =>
      rw [List.filterMap_cons, hfail e (List.mem_cons_self e rest) hp,
        List.filter_cons, hp]
      simp only [List.length_cons, if_true, ihr]
      omega

lemma strictlyNewestFirst_cons (a : EthereumBlock) (l : List EthereumBlock)
    (hl : strictlyNewestFirst l = true)
    (hhead : ∀ b, l.head? = some b → optGt a.number b.number = true) :
    strictlyNewestFirst (a :: l) = true := by
  cases l with
  | nil => rfl
  | cons b rest =>
    unfold strictlyNewestFirst
    rw [Bool.and_eq_true]
    exact ⟨hhead b rfl, hl⟩

lemma strictlyNewestFirst_take (l : List EthereumBlock) (n : Nat)
    (h : strictlyNewestFirst l = true) :
    strictlyNewestFirst (l.take n) = true := by
  induction l generalizing n with
  | nil => simp [List.take_nil]; rfl
  | cons a rest ih =>
    cases n with
    | zero => rfl
    | succ m =>
      cases rest with
      | nil =>
        simp [List.take_nil]
        rfl
      | cons b rest2 =>
        unfold strictlyNewestFirst at h
        rw [Bool.and_eq_true] at h
        cases m with
        | zero => rfl
        | succ k =>
          have htail := ih (n := k + 1) h.2
          rw [List.take_succ_cons, List.take_succ_cons]
          rw [List.take_succ_cons] at htail
          unfold strictlyNewestFirst
          rw [Bool.and_eq_true]
          exact ⟨h.1, htail⟩

lemma runCycles_cons (e : CycleEnv) (envs : List CycleEnv) (cache : CachedData) :
    runCycles (e :: envs) cache = runCycles envs (fetchLatestBlockData e cache) := rfl

lemma blockHistory_len_step (env : CycleEnv) (cache : CachedData)
    (h : cache.blockHistory.length ≤ 20) :
    (fetchLatestBlockData env cache).blockHistory.length ≤ 20 := by
  cases hok : cycleOk env with
  | false => rw [fetch_of_fail env cache hok]; exact h
  | true =>
    obtain ⟨bnHex, block, gpHex, gw, hbn, hb, hgp, hgw⟩ := cycleOk_spec env hok
    rw [fetch_of_ok env cache hbn hb hgp hgw]
    unfold cycleResult
    exact trim_length_le _ 20

lemma gasPriceHistory_len_step (env : CycleEnv) (cache : CachedData)
    (h : cache.gasPriceHistory.length ≤ 50) :
    (fetchLatestBlockData env cache).gasPriceHistory.length ≤ 50 := by
  cases hok : cycleOk env with
  | false => rw [fetch_of_fail env cache hok]; exact h
  | true =>
    obtain ⟨bnHex, block, gpHex, gw, hbn, hb, hgp, hgw⟩ := cycleOk_spec env hok
    rw [fetch_of_ok env cache hbn hb hgp hgw]
    unfold cycleResult
    exact trim_length_le _ 50

lemma runCycles_blockHistory_le (envs : List CycleEnv) (cache : CachedData)
    (h : cache.blockHistory.length ≤ 20) :
    (runCycles envs cache).blockHistory.length ≤ 20 := by
  induction envs generalizing cache with
  | nil => exact h
  | cons e rest ih =>
    rw [runCycles_cons]
    exact ih _ (blockHistory_len_step e cache h)

lemma runCycles_gasPriceHistory_le (envs : List CycleEnv) (cache : CachedData)
    (h : cache.gasPriceHistory.length ≤ 50) :
    (runCycles envs cache).gasPriceHistory.length ≤ 50 := by
  induction envs generalizing cache with
  | nil => exact h
  | cons e rest ih =>
    rw [runCycles_cons]
    exact ih _ (gasPriceHistory_len_step e cache h)

/-- C1: a refresh cycle that fails — the block fetch returns no block, or
any unrecoverable error occurs during the cycle (`cycleOk env = false`) —
leaves the cache bit-identical: no field of the cached snapshot,
including blockHistory, gasPriceHistory and lastUpdate, changes. -/
theorem C1_failed_cycle_preserves_cache (env : CycleEnv) (cache : CachedData)
    (h : cycleOk env = false) :
    fetchLatestBlockData env cache = cache :=
  fetch_of_fail env cache h

/-- Witness for C1 at the concrete null-block environment. -/
theorem C1_failed_cycle_preserves_cache_witness :
    cycleOk envNoBlock = false ∧
    fetchLatestBlockData envNoBlock initialCachedData = initialCachedData :=
  ⟨rfl, C1_failed_cycle_preserves_cache envNoBlock initialCachedData rfl⟩

/-- C2 counterexample: starting from the empty-initialized cache, two
successful refresh cycles that fetch the same block (number 1) yield a
block history that is not strictly ordered newest-first by block
number — the code never compares the fetched block against the history. -/
theorem C2_counterexample_duplicate_block :
    strictlyNewestFirst
      (runCycles [envOne, envOne] initialCachedData).blockHistory = false := by
  decide

/-- C2 (amended): strict newest-first ordering of the block history by
block number is preserved by every refresh cycle provided a successful
cycle fetches a block whose number is strictly greater than the number of
the history head; starting from the empty cache this gives strict
ordering whenever successive fetched block numbers strictly increase. -/
theorem C2_strict_order_preserved (env : CycleEnv) (cache : CachedData)
    (hs : strictlyNewestFirst cache.blockHistory = true)
    (hgt : ∀ block, fetchedBlock? env = some block →
      ∀ b, cache.blockHistory.head? = some b →
        optGt (hexToDecimal block.number) b.number = true) :
    strictlyNewestFirst (fetchLatestBlockData env cache).blockHistory = true := by
  cases hok : cycleOk env with
  | false => rw [fetch_of_fail env cache hok]; exact hs
  | true =>
    obtain ⟨bnHex, block, gpHex, gw, hbn, hb, hgp, hgw⟩ := cycleOk_spec env hok
    rw [fetch_of_ok env cache hbn hb hgp hgw]
    simp only [cycleResult]
    have hblk : fetchedBlock? env = some block := by
      unfold fetchedBlock?
      rw [hb]
    have hcons : strictlyNewestFirst
        (normalizeBlock block :: cache.blockHistory) = true := by
      apply strictlyNewestFirst_cons _ _ hs
      intro b hbd
      exact hgt block hblk b hbd
    split
    next h => exact strictlyNewestFirst_take _ 20 hcons
    next h => exact hcons

/-- Witness for the amended C2 at a concrete successful cycle over the
empty cache. -/
theorem C2_strict_order_preserved_witness :
    strictlyNewestFirst initialCachedData.blockHistory = true ∧
    strictlyNewestFirst
      (fetchLatestBlockData envOne initialCachedData).blockHistory = true :=
  ⟨rfl, C2_strict_order_preserved envOne initialCachedData rfl
    (fun _ _ b hbd => by simp [initialCachedData] at hbd)⟩

/-- C3: over any sequence of refresh cycles from the empty-initialized
cache the block history never exceeds 20 entries and the gas-price
history never exceeds 50 entries; a successful cycle places the block it
pushed at the head of the block history and the gas-price sample it
pushed at the head of the gas-price history. -/
theorem C3_history_bounds_and_newest_first (envs : List CycleEnv)
    (env : CycleEnv) (cache : CachedData) (block : RpcBlock)
    (bnHex gpHex gw : String)
    (hbn : env.blockNumberRes = .ok bnHex)
    (hb : env.blockRes = .ok (some block))
    (hgp : env.gasPriceRes = .ok gpHex)
    (hgw : formatGwei gpHex = some gw) :
    (runCycles envs initialCachedData).blockHistory.length ≤ 20 ∧
    (runCycles envs initialCachedData).gasPriceHistory.length ≤ 50 ∧
    (fetchLatestBlockData env cache).blockHistory.head?
      = some (normalizeBlock block) ∧
    (fetchLatestBlockData env cache).gasPriceHistory.head?
      = some (gasPoint bnHex gw block) := by
  refine ⟨runCycles_blockHistory_le envs initialCachedData (by simp [initialCachedData]),
    runCycles_gasPriceHistory_le envs initialCachedData (by simp [initialCachedData]),
    ?_, ?_⟩
  · rw [fetch_of_ok env cache hbn hb hgp hgw]
    simp only [cycleResult]
    exact trim_head _ _ 20 (by omega)
  · rw [fetch_of_ok env cache hbn hb hgp hgw]
    simp only [cycleResult]
    exact trim_head _ _ 50 (by omega)

/-- Witness for C3 at a concrete cycle sequence and a concrete
successful cycle. -/
theorem C3_history_bounds_and_newest_first_witness :
    formatGwei ("0x3b9aca00") = some ("1.00") ∧
    ((runCycles [envOne, envNoBlock] initialCachedData).blockHistory.length ≤ 20 ∧
     (runCycles [envOne, envNoBlock] initialCachedData).gasPriceHistory.length ≤ 50 ∧
     (fetchLatestBlockData envOne initialCachedData).blockHistory.head?
       = some (normalizeBlock rpcBlockOne) ∧
     (fetchLatestBlockData envOne initialCachedData).gasPriceHistory.head?
       = some (gasPoint ("0x1") ("1.00") rpcBlockOne)) :=
  ⟨rfl, C3_history_bounds_and_newest_first [envOne, envNoBlock] envOne
    initialCachedData rpcBlockOne ("0x1") ("0x3b9aca00") ("1.00")
    rfl rfl rfl rfl⟩

/-- C4: when a cycle samples the first N (≤ 15) transactions and exactly
one of the per-transaction fetches fails while every other sampled entry
yields a transaction, the stored transaction list has exactly N-1 entries
and the cycle still completes normally: the block, network info, history
heads, mempool stats and lastUpdate are all updated. -/
theorem C4_single_tx_failure_skipped (env : CycleEnv) (cache : CachedData)
    (block : RpcBlock) (bnHex gpHex gw : String)
    (hbn : env.blockNumberRes = .ok bnHex)
    (hb : env.blockRes = .ok (some block))
    (hgp : env.gasPriceRes = .ok gpHex)
    (hgw : formatGwei gpHex = some gw)
    (hone : ((block.transactions.take 15).filter (fetchFails env.txFetch)).length = 1)
    (hsome : ∀ e ∈ block.transactions.take 15,
      fetchFails env.txFetch e = false → (processTxEntry env.txFetch e).isSome = true) :
    (fetchLatestBlockData env cache).transactions.length
      = (block.transactions.take 15).length - 1 ∧
    (fetchLatestBlockData env cache).block = some (normalizeBlock block) ∧
    (fetchLatestBlockData env cache).networkInfo
      = { blockNumber := hexToDecimal bnHex, gasPrice := gw
        , txCount := block.transactions.length } ∧
    (fetchLatestBlockData env cache).mempoolStats
      = { pendingCount := env.randPending, avgGasPrice := gw
        , totalValue := env.randTotal } ∧
    (fetchLatestBlockData env cache).blockHistory.head?
      = some (normalizeBlock block) ∧
    (fetchLatestBlockData env cache).gasPriceHistory.head?
      = some (gasPoint bnHex gw block) ∧
    (fetchLatestBlockData env cache).lastUpdate = env.now := by
  rw [fetch_of_ok env cache hbn hb hgp hgw]
  simp only [cycleResult]
  refine ⟨?_, trivial, trivial, trivial, trim_head _ _ 20 (by omega),
    trim_head _ _ 50 (by omega), trivial⟩
  rw [processTxs_eq_filterMap, ← hone]
  exact filterMap_length_of_one_fail _ _ _
    (fun e _ hp => processTxEntry_of_fetchFails _ e hp) hsome

/-- Witness for C4: a two-transaction block in which exactly the second
fetch fails; the stored list has one entry and the cycle completes. -/
theorem C4_single_tx_failure_skipped_witness :
    ((rpcBlockTwoTx.transactions.take 15).filter (fetchFails envOneFail.txFetch)).length = 1 ∧
    (∀ e ∈ rpcBlockTwoTx.transactions.take 15,
      fetchFails envOneFail.txFetch e = false →
        (processTxEntry envOneFail.txFetch e).isSome = true) ∧
    (fetchLatestBlockData envOneFail initialCachedData).transactions.length
      = (rpcBlockTwoTx.transactions.take 15).length - 1 ∧
    (fetchLatestBlockData envOneFail initialCachedData).lastUpdate = envOneFail.now :=
  ⟨rfl, by decide,
    (C4_single_tx_failure_skipped envOneFail initialCachedData rpcBlockTwoTx
      ("0x2") ("0x3b9aca00") ("1.00") rfl rfl rfl rfl rfl (by decide)).1,
    (C4_single_tx_failure_skipped envOneFail initialCachedData rpcBlockTwoTx
      ("0x2") ("0x3b9aca00") ("1.00") rfl rfl rfl rfl rfl (by decide)).2.2.2.2.2.2⟩

/-- C5: a successful cycle builds its transaction list from exactly the
first min(K, 15) transactions of the fetched block, in block order, and
the cached list never exceeds 15 entries. -/
theorem C5_tx_sample_first_fifteen (env : CycleEnv) (cache : CachedData)
    (block : RpcBlock) (bnHex gpHex gw : String)
    (hbn : env.blockNumberRes = .ok bnHex)
    (hb : env.blockRes = .ok (some block))
    (hgp : env.gasPriceRes = .ok gpHex)
    (hgw : formatGwei gpHex = some gw) :
    (fetchLatestBlockData env cache).transactions
      = (block.transactions.take (min block.transactions.length 15)).filterMap
          (processTxEntry env.txFetch) ∧
    (fetchLatestBlockData env cache).transactions.length ≤ 15 ∧
    (fetchLatestBlockData env cache).transactions.length
      ≤ min block.transactions.length 15 := by
  rw [fetch_of_ok env cache hbn hb hgp hgw]
  simp only [cycleResult]
  rw [processTxs_eq_filterMap, take_min_length]
  have hlen := List.length_filterMap_le (processTxEntry env.txFetch)
    (block.transactions.take 15)
  have ht : (block.transactions.take 15).length = min 15 block.transactions.length :=
    List.length_take _ _
  exact ⟨rfl, by omega, by omega⟩

/-- Witness for C5 at the concrete two-transaction block. -/
theorem C5_tx_sample_first_fifteen_witness :
    formatGwei ("0x3b9aca00") = some ("1.00") ∧
    ((fetchLatestBlockData envOneFail initialCachedData).transactions
      = (rpcBlockTwoTx.transactions.take (min rpcBlockTwoTx.transactions.length 15)).filterMap
          (processTxEntry envOneFail.txFetch) ∧
     (fetchLatestBlockData envOneFail initialCachedData).transactions.length ≤ 15 ∧
     (fetchLatestBlockData envOneFail initialCachedData).transactions.length
       ≤ min rpcBlockTwoTx.transactions.length 15) :=
  ⟨rfl, C5_tx_sample_first_fifteen envOneFail initialCachedData rpcBlockTwoTx
    ("0x2") ("0x3b9aca00") ("1.00") rfl rfl rfl rfl⟩

/-- C6: a sampled transaction whose recipient field is absent or null is
normalized with the contract-creation sentinel as recipient, never a
null-like value. -/
theorem C6_contract_creation_sentinel (txData : RpcTx)
    (t : EthereumTransaction) (hto : txData.«to» = none)
    (ht : normalizeTx txData = some t) :
    t.«to» = "Contract Creation" := by
  unfold normalizeTx at ht
  cases hv : formatEther txData.value with
  | none => rw [hv] at ht; exact Option.noConfusion ht
  | some v =>
    cases hg : formatGwei txData.gasPrice with
    | none => rw [hv, hg] at ht; exact Option.noConfusion ht
    | some gp =>
      rw [hv, hg] at ht
      have h2 := Option.some.inj ht
      subst h2
      simp [jsOrStr, hto]

/-- Witness for C6 at a concrete contract-creation transaction. -/
theorem C6_contract_creation_sentinel_witness :
    txCC.«to» = none ∧ normalizeTx txCC = some txCCNorm ∧
    txCCNorm.«to» = "Contract Creation" :=
  ⟨rfl, rfl, C6_contract_creation_sentinel txCC txCCNorm rfl rfl⟩

/-- C7: ether formatting of the wei hex value 0xde0b6b3a7640000 (10^18)
yields exactly "1.000000" (division by 10^18, 6 decimal digits) and gwei
formatting of 0x3b9aca00 (10^9) yields exactly "1.00" (division by 10^9,
2 decimal digits). -/
theorem C7_format_unit_examples :
    formatEther ("0xde0b6b3a7640000") = some ("1.000000") ∧
    formatGwei ("0x3b9aca00") = some ("1.00") :=
  ⟨rfl, rfl⟩

/-- C8: the snapshot route refreshes inline exactly when the cache age
exceeds 30000 ms: at age 45000 ms a successful refresh runs before the
response is sent and the returned lastUpdate is newer than the pre-call
value; two requests each arriving within 30000 ms of the last update
trigger no refresh at all and leave the cache untouched. -/
theorem C8_snapshot_freshness_gate (env : CycleEnv) (cache : CachedData)
    (now1 now2 now3 : Nat)
    (h45 : now1 - cache.lastUpdate = 45000)
    (hok : cycleOk env = true)
    (hnew : cache.lastUpdate < env.now)
    (h2 : now2 - cache.lastUpdate ≤ 30000)
    (h3 : now3 - cache.lastUpdate ≤ 30000) :
    (snapshotTriggersRefresh now1 cache = true ∧
     (snapshotRoute env now1 cache).1 = fetchLatestBlockData env cache ∧
     cache.lastUpdate < (snapshotRoute env now1 cache).1.lastUpdate) ∧
    (snapshotTriggersRefresh now2 cache = false ∧
     snapshotRoute env now2 cache = (cache, cache) ∧
     snapshotTriggersRefresh now3 cache = false ∧
     snapshotRoute env now3 cache = (cache, cache)) := by
  have ht1 : snapshotTriggersRefresh now1 cache = true := by
    unfold snapshotTriggersRefresh
    rw [h45]
    rfl
  have ht2 : snapshotTriggersRefresh now2 cache = false := by
    unfold snapshotTriggersRefresh
    simp only [decide_eq_false_iff_not]
    omega
  have ht3 : snapshotTriggersRefresh now3 cache = false := by
    unfold snapshotTriggersRefresh
    simp only [decide_eq_false_iff_not]
    omega
  have hr1 : (snapshotRoute env now1 cache).1 = fetchLatestBlockData env cache := by
    simp [snapshotRoute, ht1]
  have hlu : (fetchLatestBlockData env cache).lastUpdate = env.now := by
    obtain ⟨bnHex, block, gpHex, gw, hbn, hb, hgp, hgw⟩ := cycleOk_spec env hok
    rw [fetch_of_ok env cache hbn hb hgp hgw]
    rfl
  refine ⟨⟨ht1, hr1, ?_⟩, ht2, ?_, ht3, ?_⟩
  · rw [hr1, hlu]
    exact hnew
  · simp [snapshotRoute, ht2]
  · simp [snapshotRoute, ht3]

/-- Witness for C8: a cache last updated at instant 5000, one request at
instant 50000 (age 45000 ms) and two requests at instants 20000 and
30000 (ages within 30000 ms). -/
theorem C8_snapshot_freshness_gate_witness :
    ((50000 : Nat) - cacheAt5000.lastUpdate = 45000) ∧
    cycleOk envOne = true ∧
    cacheAt5000.lastUpdate < envOne.now ∧
    ((20000 : Nat) - cacheAt5000.lastUpdate ≤ 30000) ∧
    ((30000 : Nat) - cacheAt5000.lastUpdate ≤ 30000) ∧
    ((snapshotTriggersRefresh 50000 cacheAt5000 = true ∧
      (snapshotRoute envOne 50000 cacheAt5000).1
        = fetchLatestBlockData envOne cacheAt5000 ∧
      cacheAt5000.lastUpdate < (snapshotRoute envOne 50000 cacheAt5000).1.lastUpdate) ∧
     (snapshotTriggersRefresh 20000 cacheAt5000 = false ∧
      snapshotRoute envOne 20000 cacheAt5000 = (cacheAt5000, cacheAt5000) ∧
      snapshotTriggersRefresh 30000 cacheAt5000 = false ∧
      snapshotRoute envOne 30000 cacheAt5000 = (cacheAt5000, cacheAt5000))) :=
  ⟨rfl, rfl, by decide, by decide, by decide,
    C8_snapshot_freshness_gate envOne cacheAt5000 50000 20000 30000
      rfl rfl (by decide) (by decide) (by decide)⟩

/-- C9: the health and mempool routes trigger no refresh cycle and leave
every field of the cache unchanged; the health route returns the status,
last-update timestamp and current block number, the mempool route only
the mempool-stats portion, both reading the cache as-is. -/
theorem C9_read_routes_pure (cache : CachedData) :
    healthRoute cache =
      ({ status := "ok", lastUpdate := cache.lastUpdate
       , blockNumber := cache.networkInfo.blockNumber }, cache) ∧
    mempoolRoute cache = (cache.mempoolStats, cache) :=
  ⟨rfl, rfl⟩

/-- C10: the status field returned by the health route is the constant
string "ok" for every cache state, including the never-refreshed initial
cache (lastUpdate 0, null block); the endpoint never reports failure. -/
theorem C10_health_status_always_ok :
    (∀ cache : CachedData, (healthRoute cache).1.status = "ok") ∧
    initialCachedData.lastUpdate = 0 ∧ initialCachedData.block = none ∧
    (healthRoute initialCachedData).1.status = "ok" :=
  ⟨fun _ => rfl, rfl, rfl, rfl⟩
